import Mathlib

/-!
Verification of the survey-CSV-to-Markdown converter
(src/survey_csv_to_markdown.py).

A row of the source grid is modelled as `List String` (one entry per cell;
pandas' missing-value artifact appears as the literal text "nan", exactly as
`str(cell)` produces it in the Python code).  The grid is `List (List String)`.

Each Lean definition below is a direct translation of the like-named Python
function; Python string idioms (`str.strip`, `str.lower`, `in`, `str.replace`,
`str.title`, `' '.join`, truthiness of lists/strings) are first given as
explicit helpers on `List Char` / `String`.
-/

/-- Python `str.strip` whitespace set (ASCII part). -/
def pyIsSpace (c : Char) : Bool :=
  c == ' ' || c == '\t' || c == '\n' || c == '\r' || c == '\x0b' || c == '\x0c'

/-- Python `str.strip`: drop leading and trailing whitespace. -/
def pyStrip (s : String) : String :=
  String.mk (((s.data.dropWhile pyIsSpace).reverse.dropWhile pyIsSpace).reverse)

/-- Python `str.lower` (per-character). -/
def pyLower (s : String) : String := String.mk (s.data.map Char.toLower)

/-- Does the second list start with the first list? -/
def startsL : List Char → List Char → Bool
  | [], _ => true
  | _ :: _, [] => false
  | a :: as, b :: bs => (a == b) && startsL as bs

/-- Python `needle in hay` (substring containment) on char lists. -/
def hasSub (needle : List Char) : List Char → Bool
  | [] => needle.isEmpty
  | c :: rest => startsL needle (c :: rest) || hasSub needle rest

/-- Python `needle in hay` on strings. -/
def hasSubS (needle hay : String) : Bool := hasSub needle.data hay.data

/-- `re.search(r'N=\d+', s)`: a literal `N=` immediately followed by a digit. -/
def hasNdig : List Char → Bool
  | a :: b :: c :: rest => (a == 'N' && b == '=' && c.isDigit) || hasNdig (b :: c :: rest)
  | _ => false

/-- String form of `hasNdig`. -/
def hasNdigS (s : String) : Bool := hasNdig s.data

/-- Python `' '.join(...)`. -/
def joinSp : List String → String
  | [] => ""
  | [s] => s
  | s :: rest => s ++ " " ++ joinSp rest

/-- Python `' | '.join(...)`. -/
def joinBar : List String → String
  | [] => ""
  | [s] => s
  | s :: rest => s ++ " | " ++ joinBar rest

/-- Python `str.title` helper: the flag records whether the previous
character was alphabetic. -/
def pyTitleAux : Bool → List Char → List Char
  | _, [] => []
  | prev, c :: rest =>
    if c.isAlpha then
      (if prev then c.toLower else c.toUpper) :: pyTitleAux true rest
    else c :: pyTitleAux false rest

/-- Python `str.title`. -/
def pyTitle (s : String) : String := String.mk (pyTitleAux false s.data)

/-- Python `str.replace` scanning core on char lists (`o :: os` is the
non-empty pattern being replaced; the Nat argument counts characters still to
skip after a match was consumed, so matches never overlap). -/
def replaceL (o : Char) (os new : List Char) : Nat → List Char → List Char
  | _, [] => []
  | Nat.succ k, _ :: rest => replaceL o os new k rest
  | 0, c :: rest =>
    if startsL (o :: os) (c :: rest) then new ++ replaceL o os new os.length rest
    else c :: replaceL o os new 0 rest

/-- Python `s.replace(old, new)` (all occurrences, left to right). -/
def pyReplace (s old new : String) : String :=
  match old.data with
  | [] => s
  | o :: os => String.mk (replaceL o os new.data 0 s.data)

/-- `first_non_empty_cell` (lines 29-38): first cell whose stripped text is
non-empty and whose lowercase form is not `nan`, returned stripped. -/
def first_non_empty_cell : List String → String
  | [] => ""
  | c :: rest =>
    let cs := pyStrip c
    if cs != "" && pyLower cs != "nan" then cs else first_non_empty_cell rest

/-- Regex `^[A-Z]\d+:` tail: zero or more further digits then a colon. -/
def restDigitsColon : List Char → Bool
  | [] => false
  | c :: rest => c == ':' || (c.isDigit && restDigitsColon rest)

/-- Regex `^[A-Z]\d+:` (searched anchored at the start). -/
def qPat1 : List Char → Bool
  | c :: d :: rest => c.isUpper && d.isDigit && restDigitsColon rest
  | _ => false

/-- Regex `^\[.*\]`: starts with `[` and a `]` occurs later with no newline
in between (`.` does not match newlines). -/
def qPat2 : List Char → Bool
  | '[' :: rest => (rest.takeWhile (fun c => c != '\n')).contains ']'
  | _ => false

/-- Regex `\?$`: `$` matches at the end or just before a final newline. -/
def qPat3 (l : List Char) : Bool :=
  match l.reverse with
  | '?' :: _ => true
  | '\n' :: '?' :: _ => true
  | _ => false

/-- Regex `^CTP:`. -/
def qPat4 (l : List Char) : Bool := startsL ("CTP:".data) l

/-- Regex `^h[A-Z]`. -/
def qPat5 : List Char → Bool
  | 'h' :: c :: _ => c.isUpper
  | _ => false

/-- Interrogative / instructional words of the long-text heuristic. -/
def question_words : List String := ["what", "how", "which", "please", "following"]

/-- Long response-option phrases denylisted by the long-text heuristic. -/
def response_indicators : List String :=
  ["marketing or advertising agency", "business entity", "educational institution",
   "organization", "government agency"]

/-- `is_question_row` (lines 41-68). -/
def is_question_row (row : List String) : Bool :=
  let fc := (first_non_empty_cell row).data
  if qPat1 fc || qPat2 fc || qPat3 fc || qPat4 fc || qPat5 fc then true
  else
    (decide (fc.length > 50)
        && question_words.any (fun w => hasSub w.data (fc.map Char.toLower)))
      && !(response_indicators.any (fun w => hasSub w.data (fc.map Char.toLower)))

/-- `' '.join(str(cell) for cell in row)` (line 80): all cells, raw. -/
def rowTextAll (row : List String) : String := joinSp row

/-- The cell filter of lines 86, 131, 254: stripped text non-empty and not
the exact lowercase literal `nan` (note: case-sensitive, unlike
`first_non_empty_cell`). -/
def cleanKeeps (c : String) : Bool := pyStrip c != "" && pyStrip c != "nan"

/-- `' '.join(str(cell) for cell in row if ...)` (line 86): kept cells joined
raw (unstripped). -/
def rowTextClean (row : List String) : String := joinSp (row.filter cleanKeeps)

/-- The dataset-specific header labels of lines 98-102. -/
def specific_headers : List String :=
  ["Pro-to-Pro Switchers (B)", "Software-to-Pro Switchers (C)", "Pro-to-Software Switchers (D)"]

/-- `is_header_row` (lines 71-106). -/
def is_header_row (row : List String) : Bool :=
  let first_cell := first_non_empty_cell row
  if first_cell == "Total" && hasSubS "N=" (rowTextAll row) then true
  else
    let row_text := rowTextClean row
    if hasSubS "Total (A)" row_text then true
    else if hasSubS "Total (A)" row_text && hasSubS "Pro-to-Pro Switchers (B)" row_text
        && hasSubS "Software-to-Pro Switchers (C)" row_text
        && hasSubS "Pro-to-Software Switchers (D)" row_text then true
    else specific_headers.any (fun h => hasSubS h row_text)

/-- `non_empty_cells` of `is_data_row` (line 131): stripped cells whose text
is non-empty and not the exact literal `nan`. -/
def dataNonEmptyCells (row : List String) : List String :=
  (row.map pyStrip).filter (fun c => c != "" && c != "nan")

/-- Response-category literals of lines 139-148. -/
def response_categories : List String :=
  ["Total", "Mean", "Median", "Standard Deviation",
   "Yes", "No", "Male", "Female", "Other",
   "Very important", "Somewhat important", "Not important",
   "Strongly agree", "Agree", "Disagree",
   "Currently use", "Used", "Never used",
   "A marketing or advertising agency",
   "A business entity", "An educational institution",
   "An organization or non-profit", "A government agency"]

/-- `is_data_row` (lines 109-154). -/
def is_data_row (row : List String) : Bool :=
  let fc := first_non_empty_cell row
  if fc == "" || fc == "nan" then false
  else if is_question_row row then false
  else
    let numeric_cells := ((dataNonEmptyCells row).filter (fun c => c.data.any Char.isDigit)).length
    if numeric_cells ≥ 2 then true
    else if response_categories.any (fun cat => hasSubS cat fc) then true
    else decide (0 < fc.length) && decide (fc.length < 120)

/-- Indices of rows for which `is_question_row` holds (lines 174-177). -/
def questionBoundaries (grid : List (List String)) : List Nat :=
  (List.range grid.length).filter (fun i => is_question_row (grid.getD i []))

/-- Section ranges: each boundary paired with the next boundary, the last
with the grid length (line 183). -/
def secRanges : List Nat → Nat → List (Nat × Nat)
  | [], _ => []
  | [b], n => [(b, n)]
  | b :: b' :: rest, n => (b, b') :: secRanges (b' :: rest) n

/-- Cell normalisation of lines 197-204 / 207-213: strip, replace empty and
`nan` cells by the empty string. -/
def cleanRow (row : List String) : List String :=
  row.map (fun cell =>
    let cs := pyStrip cell
    if cs != "" && cs != "nan" then cs else "")

/-- The rows of a section after its question row (lines 193-194). -/
def sectionRows (grid : List (List String)) (qs qe : Nat) : List (List String) :=
  (List.range' (qs + 1) (qe - (qs + 1))).map (fun i => grid.getD i [])

/-- `all_header_rows` of a section (lines 196-204). -/
def sectionHeaders (grid : List (List String)) (qs qe : Nat) : List (List String) :=
  ((sectionRows grid qs qe).filter is_header_row).map cleanRow

/-- `section_data` of a section (lines 206-216): rows not flagged as header,
flagged as data, kept only if some cell is non-empty after cleaning. -/
def sectionData (grid : List (List String)) (qs qe : Nat) : List (List String) :=
  (((sectionRows grid qs qe).filter (fun r => !is_header_row r && is_data_row r)).map cleanRow).filter
    (fun dr => dr.any (fun s => s != ""))

/-- The switcher labels of lines 229-233. -/
def switcher_labels : List String :=
  ["Pro-to-Pro Switchers (B)", "Software-to-Pro Switchers (C)", "Pro-to-Software Switchers (D)"]

/-- Descriptive-header test of line 239 (on the cleaned header row). -/
def isDescr (hr : List String) : Bool :=
  hasSubS "Total (A)" (joinSp hr) || switcher_labels.any (fun lbl => hasSubS lbl (joinSp hr))

/-- Sample-size test of line 243: `'N=' in header_text or re.search(r'N=\d+', header_text)`. -/
def isTotalMark (hr : List String) : Bool :=
  hasSubS "N=" (joinSp hr) || hasNdigS (joinSp hr)

/-- The scan loop of lines 234-244: walk the collected header rows, keeping
the most recent row passing each test. -/
def scanHeaders : List (List String) → Option (List String) × Option (List String) →
    Option (List String) × Option (List String)
  | [], acc => acc
  | hr :: rest, acc =>
    scanHeaders rest
      ((if isDescr hr then some hr else acc.1), (if isTotalMark hr then some hr else acc.2))

/-- Python truthiness of `Option (List _)`: `None` and `Some []` are falsy. -/
def optFalsy : Option (List String) → Bool
  | none => true
  | some [] => true
  | some (_ :: _) => false

/-- `if v: acc.append(v)` for an optional list value. -/
def optTruthyRows : Option (List String) → List (List String)
  | some (x :: xs) => [x :: xs]
  | _ => []

/-- First-match scan of lines 252-265 / 269-281: first listed row index whose
non-empty cells contain an `N=<digits>` marker, returned cleaned. -/
def findNRow (grid : List (List String)) : List Nat → Option (List String)
  | [] => none
  | i :: rest =>
    let row := grid.getD i []
    if (dataNonEmptyCells row).any (fun c => hasNdigS c) then some (cleanRow row)
    else findNRow grid rest

/-- Fallback (a) of lines 250-265: scan the section rows after the question row. -/
def fallbackA (grid : List (List String)) (qs qe : Nat) : Option (List String) :=
  findNRow grid (List.range' (qs + 1) (qe - (qs + 1)))

/-- Fallback (b) of lines 266-281: scan up to six rows just above the
question row (`max(0, qs-6)` is Nat-saturating subtraction). -/
def fallbackB (grid : List (List String)) (qs : Nat) : Option (List String) :=
  findNRow grid (List.range' (qs - 6) (qs - (qs - 6)))

/-- Header reconciliation of lines 218-289.  Runs only when at least one
header row was flagged; otherwise `header_rows = []`. -/
def reconcileHeaders (grid : List (List String)) (qs qe : Nat)
    (hdrs : List (List String)) : List (List String) :=
  if hdrs.isEmpty then []
  else
    let dt := scanHeaders hdrs (none, none)
    let t1 := if optFalsy dt.2 then
        (match fallbackA grid qs qe with | some th => some th | none => dt.2)
      else dt.2
    let t2 := if optFalsy t1 then
        (match fallbackB grid qs with | some th => some th | none => t1)
      else t1
    optTruthyRows dt.1 ++ optTruthyRows t2

/-- Python `old * n` string repetition. -/
def repStr : Nat → String → String
  | 0, _ => ""
  | n + 1, s => s ++ repStr n s

/-- Pad with empty cells to length `n`, then truncate to `n`
(lines 338-342 / 346-352). -/
def padTake (n : Nat) (l : List String) : List String :=
  (l ++ List.replicate (n - l.length) "").take n

/-- Cell cleanup of line 353: escape pipes, replace newlines by a space. -/
def cleanCell (c : String) : String := pyReplace (pyReplace c "|" "\\|") "\n" " "

/-- The visible header line of line 331 (cells NOT escaped). -/
def renderHeaderLine (ths : List String) : String := "| " ++ joinBar ths ++ " |\n"

/-- The separator line of line 332. -/
def sepLine (n : Nat) : String := "|" ++ repStr n "---|" ++ "\n"

/-- The secondary-header line of lines 336-343 (cells NOT escaped). -/
def renderSecondaryLine (ths sec : List String) : String :=
  "| " ++ joinBar (padTake ths.length sec) ++ " |\n"

/-- A data line of lines 345-356 (cells escaped via `cleanCell`). -/
def renderDataRow (ths dr : List String) : String :=
  "| " ++ joinBar ((padTake ths.length dr).map cleanCell) ++ " |\n"

/-- `max(len(row) for row in data_rows) if data_rows else 0` (line 324). -/
def maxCols (rows : List (List String)) : Nat :=
  rows.foldr (fun r m => max r.length m) 0

/-- `format_question_section` (lines 306-360). -/
def format_question_section (qnum : Nat) (question : String)
    (header_rows data_rows : List (List String)) : String :=
  let content := "### Question " ++ Nat.repr qnum ++ "\n\n**" ++ question ++ "**\n\n"
  if header_rows.isEmpty && data_rows.isEmpty then
    content ++ "*No response data available for this question.*\n\n"
  else
    let table_headers := match header_rows with
      | h :: _ => h
      | [] => (List.range (maxCols data_rows)).map (fun i => "Column " ++ Nat.repr (i + 1))
    if data_rows.isEmpty then content
    else
      content ++ "#### Response Data\n\n"
        ++ renderHeaderLine table_headers
        ++ sepLine table_headers.length
        ++ (match header_rows with
            | _ :: sec :: _ => renderSecondaryLine table_headers sec
            | _ => "")
        ++ String.join (data_rows.map (renderDataRow table_headers))
        ++ "\n"

/-- One section of the main loop (lines 181-296): returns the emitted text and
the updated question counter.  A section with no reconciled headers and no
data is skipped (line 292). -/
def sectionOutput (grid : List (List String)) (qs qe n : Nat) : String × Nat :=
  let hdrs := sectionHeaders grid qs qe
  let data := sectionData grid qs qe
  let header_rows := reconcileHeaders grid qs qe hdrs
  if !header_rows.isEmpty || !data.isEmpty then
    (format_question_section (n + 1) (pyStrip ((grid.getD qs []).getD 0 "")) header_rows data,
     n + 1)
  else ("", n)

/-- Document preamble of lines 164-171. -/
def docHeader (grid : List (List String)) (ncols : Nat) (filename : String) : String :=
  "# " ++ pyTitle (pyReplace (pyReplace filename "_" " ") ".csv" "") ++ "\n\n"
    ++ "**Total Records:** " ++ Nat.repr grid.length ++ "  \n"
    ++ "**Total Columns:** " ++ Nat.repr ncols ++ "  \n"
    ++ "**Generated:** October 28, 2025  \n\n"
    ++ "## Survey Questions and Responses\n\n"

/-- `format_survey_csv_to_markdown` (lines 157-303).  The dataframe is the
grid of cell texts plus its column count; `df.empty` holds when either axis
has length zero. -/
def format_survey_csv_to_markdown (grid : List (List String)) (ncols : Nat)
    (filename : String) : String :=
  if grid.isEmpty || ncols == 0 then "# " ++ filename ++ "\n\n*This file is empty.*\n"
  else
    let secs := secRanges (questionBoundaries grid) grid.length
    let body := secs.foldl (fun (acc : String × Nat) (p : Nat × Nat) =>
        let r := sectionOutput grid p.1 p.2 acc.2
        (acc.1 ++ r.1, r.2)) ("", 0)
    docHeader grid ncols filename ++ body.1
      ++ "## Summary\n\n"
      ++ "**Total Questions Processed:** " ++ Nat.repr body.2 ++ "  \n"
      ++ "**Source File:** " ++ filename ++ "  \n"

/-- Last element of the list passing the test (the net effect of the
assignment loop of lines 234-244). -/
def lastMatch (p : List String → Bool) : List (List String) → Option (List String)
  | [] => none
  | hr :: rest =>
    match lastMatch p rest with
    | some r => some r
    | none => if p hr then some hr else none

/-- `Option` analogue of Python `x if x else y`. -/
def optOr (a b : Option (List String)) : Option (List String) :=
  match a with
  | some x => some x
  | none => b

/-- Count of unescaped pipes: a `|` counts unless the previous character is a
backslash; the first argument carries the previous character. -/
def cupAux : Char → List Char → Nat
  | _, [] => 0
  | p, c :: rest => (if c == '|' && p != '\\' then 1 else 0) + cupAux c rest

/-- Number of unescaped `|` characters of a string (splitting a Markdown
table line on unescaped pipes yields this count plus one fields, i.e. the
count minus one interior cell fields). -/
def countUP (s : String) : Nat := cupAux ' ' s.data

/-- Reference form of `s.replace('|', '\\|')` on char lists. -/
def escPipes : List Char → List Char
  | [] => []
  | c :: rest => if c == '|' then '\\' :: '|' :: escPipes rest else c :: escPipes rest

/-- Reference form of `s.replace('\n', ' ')` on char lists. -/
def spaceNl : List Char → List Char
  | [] => []
  | c :: rest => (if c == '\n' then ' ' else c) :: spaceNl rest

/-! ## Helper lemmas and claim theorems -/

/-- C1 (confirmed): for every row, if `is_question_row` is true then
`is_data_row` is false — the question predicate takes precedence, so no row is
classified as both a question and a data row. -/
theorem C1_question_precedence (row : List String) (h : is_question_row row = true) :
    is_data_row row = false := by
  unfold is_data_row
  simp only [h]
  split
  · rfl
  · rfl

/-- Witness for C1 at a concrete question row. -/
theorem C1_witness :
    is_question_row ["Is it good?"] = true ∧ is_data_row ["Is it good?"] = false :=
  ⟨rfl, C1_question_precedence ["Is it good?"] rfl⟩

/-- C10 (confirmed): the null-marker comparison is case-insensitive in
`first_non_empty_cell` but case-sensitive in `is_header_row` / `is_data_row`.
A cell whose stripped text lowercases to `nan` without being exactly `nan`
(e.g. `NaN`) is skipped by `first_non_empty_cell`, yet kept by the cell filter
feeding `is_header_row`'s row text and listed among `is_data_row`'s non-empty
cells (the list over which the numeric-cell count runs). -/
theorem C10_nan_casing (c : String) (row : List String)
    (h1 : pyLower (pyStrip c) = "nan") (h2 : pyStrip c ≠ "nan") :
    first_non_empty_cell (c :: row) = first_non_empty_cell row
    ∧ cleanKeeps c = true
    ∧ (c :: row).filter cleanKeeps = c :: row.filter cleanKeeps
    ∧ dataNonEmptyCells (c :: row) = pyStrip c :: dataNonEmptyCells row := by
  have hne : pyStrip c ≠ "" := by
    intro h
    rw [h] at h1
    exact absurd h1 (by decide)
  have hk : cleanKeeps c = true := by
    simp [cleanKeeps, hne, h2]
  refine ⟨?_, hk, ?_, ?_⟩
  · have hcond : (pyStrip c != "" && pyLower (pyStrip c) != "nan") = false := by
      rw [h1]
      simp
    conv_lhs => rw [first_non_empty_cell]
    simp only [hcond, Bool.false_eq_true, if_false]
  · simp [List.filter_cons, hk]
  · unfold dataNonEmptyCells
    simp [List.filter_cons, hne, h2]

/-- Witness for C10 at the concrete cell `NaN`. -/
theorem C10_witness :
    pyLower (pyStrip "NaN") = "nan"
    ∧ first_non_empty_cell ["NaN", "7"] = first_non_empty_cell ["7"]
    ∧ cleanKeeps "NaN" = true
    ∧ dataNonEmptyCells ["NaN", "7"] = pyStrip "NaN" :: dataNonEmptyCells ["7"] :=
  ⟨rfl, (C10_nan_casing "NaN" ["7"] rfl (by decide)).1,
   (C10_nan_casing "NaN" ["7"] rfl (by decide)).2.1,
   (C10_nan_casing "NaN" ["7"] rfl (by decide)).2.2.2⟩

/-- C9 counterexample: the row `["Total", "N=x"]` has first non-empty cell
exactly `Total`, matches no other header trigger, contains no `N=<digits>`
marker anywhere — yet `is_header_row` is true, because the code only tests for
the literal substring `N=` (line 81), digits not required. -/
theorem C9_cex :
    first_non_empty_cell ["Total", "N=x"] = "Total"
    ∧ hasSubS "Total (A)" (rowTextClean ["Total", "N=x"]) = false
    ∧ specific_headers.all (fun h => !hasSubS h (rowTextClean ["Total", "N=x"])) = true
    ∧ hasNdigS (rowTextAll ["Total", "N=x"]) = false
    ∧ is_header_row ["Total", "N=x"] = true :=
  ⟨rfl, rfl, rfl, rfl, rfl⟩

/-- C9 (corrected): for a row whose first non-empty cell is exactly `Total`
and which matches none of the other header triggers, `is_header_row` is true
exactly when the raw concatenation of all cells contains the literal substring
`N=` — one or more digits after `N=` are NOT required. -/
theorem C9_amended (row : List String)
    (h1 : first_non_empty_cell row = "Total")
    (h2 : hasSubS "Total (A)" (rowTextClean row) = false)
    (h3 : hasSubS "Pro-to-Pro Switchers (B)" (rowTextClean row) = false)
    (h4 : hasSubS "Software-to-Pro Switchers (C)" (rowTextClean row) = false)
    (h5 : hasSubS "Pro-to-Software Switchers (D)" (rowTextClean row) = false) :
    is_header_row row = hasSubS "N=" (rowTextAll row) := by
  unfold is_header_row
  simp only [h1, h2, h3, h4, h5, specific_headers]
  cases hN : hasSubS "N=" (rowTextAll row) <;> simp [hN, h3, h4, h5]

/-- Witness for C9 at the concrete row `["Total", "N=5"]`. -/
theorem C9_witness :
    is_header_row ["Total", "N=5"] = hasSubS "N=" (rowTextAll ["Total", "N=5"])
    ∧ hasSubS "N=" (rowTextAll ["Total", "N=5"]) = true :=
  ⟨C9_amended ["Total", "N=5"] rfl rfl rfl rfl rfl, rfl⟩

theorem secRanges_length : ∀ (bs : List Nat) (n : Nat), (secRanges bs n).length = bs.length
  | [], _ => rfl
  | [_], _ => rfl
  | b :: b' :: rest, n => by
    simp only [secRanges, List.length_cons, secRanges_length (b' :: rest) n]

theorem secRanges_map_fst : ∀ (bs : List Nat) (n : Nat),
    (secRanges bs n).map Prod.fst = bs
  | [], _ => rfl
  | [_], _ => rfl
  | b :: b' :: rest, n => by
    simp only [secRanges, List.map_cons, secRanges_map_fst (b' :: rest) n]

theorem secRanges_fst_mem : ∀ (bs : List Nat) (n : Nat) (p : Nat × Nat),
    p ∈ secRanges bs n → p.1 ∈ bs
  | [], _, p, h => by simp [secRanges] at h
  | [b], n, p, h => by
    simp only [secRanges, List.mem_singleton] at h
    simp [h]
  | b :: b' :: rest, n, p, h => by
    simp only [secRanges, List.mem_cons] at h
    rcases h with h | h
    · simp [h]
    · exact List.mem_cons_of_mem _ (secRanges_fst_mem (b' :: rest) n p h)

theorem secRanges_snd_mem : ∀ (bs : List Nat) (n : Nat) (p : Nat × Nat),
    p ∈ secRanges bs n → p.2 ∈ bs ∨ p.2 = n
  | [], _, p, h => by simp [secRanges] at h
  | [b], n, p, h => by
    simp only [secRanges, List.mem_singleton] at h
    simp [h]
  | b :: b' :: rest, n, p, h => by
    simp only [secRanges, List.mem_cons] at h
    rcases h with h | h
    · exact Or.inl (by simp [h])
    · rcases secRanges_snd_mem (b' :: rest) n p h with h' | h'
      · exact Or.inl (List.mem_cons_of_mem _ h')
      · exact Or.inr h'

theorem secRanges_head? : ∀ (b : Nat) (bs : List Nat) (n : Nat),
    (secRanges (b :: bs) n).head? = some (b, bs.headD n)
  | _, [], _ => rfl
  | _, _ :: _, _ => rfl

theorem secRanges_chain : ∀ (bs : List Nat) (n : Nat),
    List.Chain' (fun s t => s.2 = t.1) (secRanges bs n)
  | [], _ => List.chain'_nil
  | [b], n => List.chain'_singleton _
  | b :: b' :: rest, n => by
    rw [secRanges]
    refine List.Chain'.cons' (secRanges_chain (b' :: rest) n) ?_
    intro y hy
    rw [secRanges_head?] at hy
    simp only [Option.mem_def, Option.some.injEq] at hy
    rw [← hy]

theorem secRanges_getLast : ∀ (bs : List Nat) (n : Nat) (p : Nat × Nat),
    (secRanges bs n).getLast? = some p → p.2 = n
  | [], n, p, h => by simp [secRanges] at h
  | [b], n, p, h => by
    simp only [secRanges, List.getLast?_singleton, Option.some.injEq] at h
    simp [← h]
  | b :: b' :: rest, n, p, h => by
    rw [secRanges] at h
    cases hE : secRanges (b' :: rest) n with
    | nil =>
      have := secRanges_length (b' :: rest) n
      rw [hE] at this
      simp at this
    | cons q qs =>
      rw [hE, List.getLast?_cons_cons] at h
      exact secRanges_getLast (b' :: rest) n p (by rw [hE]; exact h)

theorem secRanges_pairwise : ∀ (bs : List Nat) (n : Nat), bs.Pairwise (· < ·) →
    (secRanges bs n).Pairwise (fun s t => s.2 ≤ t.1)
  | [], _, _ => by simp [secRanges]
  | [b], n, _ => by simp [secRanges]
  | b :: b' :: rest, n, hp => by
    rw [secRanges]
    refine List.pairwise_cons.mpr ⟨?_, secRanges_pairwise (b' :: rest) n hp.of_cons⟩
    intro t ht
    have h1 : t.1 ∈ b' :: rest := secRanges_fst_mem (b' :: rest) n t ht
    rcases List.mem_cons.mp h1 with h | h
    · simp [← h]
    · have := (List.pairwise_cons.mp hp.of_cons).1 _ h
      show b' ≤ t.1
      omega

theorem secRanges_cover : ∀ (bs : List Nat) (n : Nat), bs.Pairwise (· < ·) →
    ∀ j, j < n → ((∃ p ∈ secRanges bs n, p.1 ≤ j ∧ j < p.2) ↔ ∃ b ∈ bs, b ≤ j)
  | [], n, _, j, hj => by simp [secRanges]
  | [b], n, _, j, hj => by
    simp only [secRanges, List.mem_singleton]
    constructor
    · rintro ⟨p, hp, h1, h2⟩
      subst hp
      exact ⟨b, rfl, h1⟩
    · rintro ⟨x, hx, hxle⟩
      subst hx
      exact ⟨(x, n), rfl, hxle, hj⟩
  | b :: b' :: rest, n, hp, j, hj => by
    have ih := secRanges_cover (b' :: rest) n hp.of_cons j hj
    rw [secRanges]
    constructor
    · rintro ⟨p, hpmem, hle, hlt'⟩
      rcases List.mem_cons.mp hpmem with rfl | hmem
      · exact ⟨b, List.mem_cons_self b _, hle⟩
      · obtain ⟨x, hx, hxle⟩ := ih.mp ⟨p, hmem, hle, hlt'⟩
        exact ⟨x, List.mem_cons_of_mem _ hx, hxle⟩
    · rintro ⟨x, hx, hxle⟩
      rcases List.mem_cons.mp hx with rfl | hx'
      · by_cases hb' : j < b'
        · exact ⟨(x, b'), List.mem_cons_self _ _, hxle, hb'⟩
        · obtain ⟨p, hpmem, h1, h2⟩ := ih.mpr ⟨b', List.mem_cons_self b' _, by omega⟩
          exact ⟨p, List.mem_cons_of_mem _ hpmem, h1, h2⟩
      · obtain ⟨p, hpmem, h1, h2⟩ := ih.mpr ⟨x, hx', hxle⟩
        exact ⟨p, List.mem_cons_of_mem _ hpmem, h1, h2⟩

theorem questionBoundaries_pairwise (grid : List (List String)) :
    (questionBoundaries grid).Pairwise (· < ·) :=
  List.Pairwise.sublist (List.filter_sublist _) (List.pairwise_lt_range _)

theorem questionBoundaries_lt (grid : List (List String)) :
    ∀ b ∈ questionBoundaries grid, b < grid.length := by
  intro b hb
  exact List.mem_range.mp (List.mem_of_mem_filter hb)

/-- C2 (confirmed): the segmenter produces one section per question row; the
sections start exactly at the question-row indices in row order, are
contiguous (each section's end is the next section's start, the last ending
at the grid length), non-overlapping, and a row index below the grid length
lies in some section exactly when some question-row index is at or before it
(so rows before the first question row belong to no section). -/
theorem C2_segmenter_invariants (grid : List (List String)) :
    (secRanges (questionBoundaries grid) grid.length).length
        = (List.range grid.length).countP (fun i => is_question_row (grid.getD i []))
    ∧ (secRanges (questionBoundaries grid) grid.length).map Prod.fst = questionBoundaries grid
    ∧ List.Chain' (fun s t => s.2 = t.1) (secRanges (questionBoundaries grid) grid.length)
    ∧ (∀ p, (secRanges (questionBoundaries grid) grid.length).getLast? = some p →
        p.2 = grid.length)
    ∧ (secRanges (questionBoundaries grid) grid.length).Pairwise (fun s t => s.2 ≤ t.1)
    ∧ (∀ j, j < grid.length →
        ((∃ p ∈ secRanges (questionBoundaries grid) grid.length, p.1 ≤ j ∧ j < p.2)
          ↔ ∃ b ∈ questionBoundaries grid, b ≤ j))
    ∧ (∀ p ∈ secRanges (questionBoundaries grid) grid.length,
        p.1 < grid.length ∧ p.2 ≤ grid.length) := by
  refine ⟨?_, secRanges_map_fst _ _, secRanges_chain _ _,
    fun p hp => secRanges_getLast _ _ p hp,
    secRanges_pairwise _ _ (questionBoundaries_pairwise grid),
    secRanges_cover _ _ (questionBoundaries_pairwise grid), ?_⟩
  · rw [secRanges_length, questionBoundaries, List.countP_eq_length_filter]
  · intro p hp
    constructor
    · exact questionBoundaries_lt grid _ (secRanges_fst_mem _ _ p hp)
    · rcases secRanges_snd_mem _ _ p hp with h | h
      · exact Nat.le_of_lt (questionBoundaries_lt grid _ h)
      · exact Nat.le_of_eq h

theorem lastMatch_sat (p : List String → Bool) :
    ∀ (l : List (List String)) (r : List String), lastMatch p l = some r → p r = true
  | [], r, h => by simp [lastMatch] at h
  | hr :: rest, r, h => by
    rw [lastMatch] at h
    cases hL : lastMatch p rest with
    | some q =>
      rw [hL] at h
      exact lastMatch_sat p rest r (hL.trans h)
    | none =>
      rw [hL] at h
      by_cases hp : p hr = true
      · rw [if_pos hp] at h
        cases h
        exact hp
      · rw [if_neg hp] at h
        cases h

theorem lastMatch_cons (p : List String → Bool) (hr : List String)
    (rest : List (List String)) :
    lastMatch p (hr :: rest) = optOr (lastMatch p rest) (if p hr then some hr else none) := by
  rw [lastMatch]
  cases lastMatch p rest <;> simp [optOr]

theorem optOr_none (a : Option (List String)) : optOr a none = a := by
  cases a <;> rfl

theorem optOr_assoc (a b c : Option (List String)) :
    optOr (optOr a b) c = optOr a (optOr b c) := by
  cases a <;> rfl

theorem optOr_if (b : Bool) (x : List String) (d : Option (List String)) :
    optOr (if b then some x else none) d = if b then some x else d := by
  cases b <;> rfl

theorem scanHeaders_spec : ∀ (l : List (List String)) (d t : Option (List String)),
    scanHeaders l (d, t) = (optOr (lastMatch isDescr l) d, optOr (lastMatch isTotalMark l) t)
  | [], d, t => by simp [scanHeaders, lastMatch, optOr]
  | hr :: rest, d, t => by
    rw [scanHeaders, scanHeaders_spec rest _ _, lastMatch_cons, lastMatch_cons,
      optOr_assoc, optOr_assoc, optOr_if, optOr_if]

theorem isDescr_ne_nil {r : List String} (h : isDescr r = true) : r ≠ [] := by
  intro he
  subst he
  exact absurd h (by decide)

theorem isTotalMark_ne_nil {r : List String} (h : isTotalMark r = true) : r ≠ [] := by
  intro he
  subst he
  exact absurd h (by decide)

theorem findNRow_ne_nil (grid : List (List String)) :
    ∀ (idxs : List Nat) (th : List String), findNRow grid idxs = some th → th ≠ []
  | [], th, h => by simp [findNRow] at h
  | i :: rest, th, h => by
    rw [findNRow] at h
    by_cases hc : ((dataNonEmptyCells (grid.getD i [])).any (fun c => hasNdigS c)) = true
    · rw [if_pos hc] at h
      obtain ⟨c, hmem, _⟩ := List.any_eq_true.mp hc
      cases h
      intro he
      have hgne : grid.getD i [] ≠ [] := by
        intro hrow
        rw [hrow] at hmem
        simp [dataNonEmptyCells] at hmem
      rw [cleanRow] at he
      exact hgne (List.map_eq_nil_iff.mp he)
    · rw [if_neg hc] at h
      exact findNRow_ne_nil grid rest th h

/-- C3 counterexample: in a section whose only flagged header row is
`["Total", "N=?"]`, the reconciler selects that row as the sample-size header
(line 243 accepts the bare substring `N=`), although its text matches no
`N=<digits>` marker; the claim, which requires an `N=<digits>` match, is
therefore false at this input. -/
theorem C3_cex :
    is_header_row ["Total", "N=?"] = true
    ∧ lastMatch isDescr [["Total", "N=?"]] = none
    ∧ isTotalMark ["Total", "N=?"] = true
    ∧ hasNdigS (joinSp ["Total", "N=?"]) = false
    ∧ reconcileHeaders [] 0 1 [["Total", "N=?"]] = [["Total", "N=?"]] :=
  ⟨rfl, rfl, rfl, rfl, rfl⟩

/-- C3 (corrected): when the flagged header rows contain both a last row whose
concatenated text matches the descriptive test (`Total (A)` or a group label)
and a last row whose concatenated text contains the substring `N=` (digits NOT
required — this is the amendment), the reconciled HeaderSet is exactly
descriptive-then-sample-size, regardless of the order in which the two were
encountered. -/
theorem C3_amended (grid : List (List String)) (qs qe : Nat)
    (hdrs : List (List String)) (d t : List String)
    (hd : lastMatch isDescr hdrs = some d) (ht : lastMatch isTotalMark hdrs = some t) :
    reconcileHeaders grid qs qe hdrs = [d, t] := by
  have hpd : isDescr d = true := lastMatch_sat _ _ _ hd
  have hpt : isTotalMark t = true := lastMatch_sat _ _ _ ht
  have hdne : d ≠ [] := isDescr_ne_nil hpd
  have htne : t ≠ [] := isTotalMark_ne_nil hpt
  cases hdrs with
  | nil => simp [lastMatch] at hd
  | cons a as =>
    unfold reconcileHeaders
    rw [List.isEmpty_cons]
    simp only [Bool.false_eq_true, if_false]
    rw [scanHeaders_spec, hd, ht]
    simp only [optOr]
    cases t with
    | nil => exact absurd rfl htne
    | cons x xs =>
      cases d with
      | nil => exact absurd rfl hdne
      | cons y ys =>
        simp [optFalsy, optTruthyRows]

/-- Witness for C3: both a descriptive and a sample-size header present, with
the sample-size row scanned first; the HeaderSet still lists the descriptive
row first. -/
theorem C3_witness :
    lastMatch isDescr [["Total", "N=5"], ["Total (A)", "x"]] = some ["Total (A)", "x"]
    ∧ lastMatch isTotalMark [["Total", "N=5"], ["Total (A)", "x"]] = some ["Total", "N=5"]
    ∧ reconcileHeaders [] 0 0 [["Total", "N=5"], ["Total (A)", "x"]]
        = [["Total (A)", "x"], ["Total", "N=5"]] :=
  ⟨rfl, rfl, C3_amended [] 0 0 _ _ _ rfl rfl⟩

/-- C4 counterexample: a section containing the data row `["Yes", "N=100"]`
(which carries an `N=<digits>` marker) but no classifier-flagged header rows.
The claim says the fallback scan must then supply the sample-size header, but
the reconciliation block of lines 219-287 runs only under
`if all_header_rows:`, so the HeaderSet stays empty. -/
theorem C4_cex :
    sectionHeaders [["Q9: Do you agree?"], ["Yes", "N=100"]] 0 2 = []
    ∧ sectionData [["Q9: Do you agree?"], ["Yes", "N=100"]] 0 2 = [["Yes", "N=100"]]
    ∧ (dataNonEmptyCells ["Yes", "N=100"]).any (fun c => hasNdigS c) = true
    ∧ reconcileHeaders [["Q9: Do you agree?"], ["Yes", "N=100"]] 0 2
        (sectionHeaders [["Q9: Do you agree?"], ["Yes", "N=100"]] 0 2) = [] :=
  ⟨rfl, rfl, rfl, rfl⟩

/-- C4 (corrected): for a section with AT LEAST ONE classifier-flagged header
row (the amendment — with zero flagged rows no fallback runs at all) and no
flagged row containing an `N=` marker, the reconciler falls back to scanning
(a) the section rows strictly after the question row, then (b) up to six rows
immediately preceding the section start, taking the first row with a cell
matching `N=<digits>` in that priority order as the sample-size header. -/
theorem C4_amended (grid : List (List String)) (qs qe : Nat)
    (hdrs : List (List String)) (hne : hdrs ≠ [])
    (ht : lastMatch isTotalMark hdrs = none) :
    reconcileHeaders grid qs qe hdrs =
      optTruthyRows (lastMatch isDescr hdrs)
        ++ optTruthyRows (optOr (fallbackA grid qs qe) (fallbackB grid qs)) := by
  cases hdrs with
  | nil => exact absurd rfl hne
  | cons a as =>
    unfold reconcileHeaders
    rw [List.isEmpty_cons]
    simp only [Bool.false_eq_true, if_false]
    rw [scanHeaders_spec, ht]
    simp only [optOr_none, optOr]
    cases hA : fallbackA grid qs qe with
    | some th =>
      have hthne : th ≠ [] := findNRow_ne_nil grid _ th hA
      cases th with
      | nil => exact absurd rfl hthne
      | cons x xs =>
        cases lastMatch isDescr (a :: as) <;> simp [optFalsy]
    | none =>
      cases lastMatch isDescr (a :: as) <;> cases fallbackB grid qs <;> simp [optFalsy]

/-- Witness for C4: one flagged header row with no `N=` text; the fallback
scan (a) finds the in-section row `["N=7"]` and appends it as the sample-size
header. -/
theorem C4_witness :
    lastMatch isTotalMark [["Total (A)"]] = none
    ∧ reconcileHeaders [["x"], ["N=7"]] 0 2 [["Total (A)"]]
        = [["Total (A)"], ["N=7"]] := by
  refine ⟨rfl, ?_⟩
  rw [C4_amended [["x"], ["N=7"]] 0 2 [["Total (A)"]] (by simp) rfl]
  rfl

theorem replaceL_pipe : ∀ l : List Char, replaceL '|' [] ['\\', '|'] 0 l = escPipes l := by
  intro l
  induction l with
  | nil => simp [replaceL, escPipes]
  | cons c rest ih =>
    rw [replaceL, escPipes]
    by_cases hc : c = '|'
    · subst hc
      simp [startsL, ih]
    · have hcb : ('|' == c) = false := by
        rw [beq_eq_false_iff_ne]
        exact fun h => hc h.symm
      simp [startsL, hcb, hc, ih]

theorem replaceL_nl : ∀ l : List Char, replaceL '\n' [] [' '] 0 l = spaceNl l := by
  intro l
  induction l with
  | nil => simp [replaceL, spaceNl]
  | cons c rest ih =>
    rw [replaceL, spaceNl]
    by_cases hc : c = '\n'
    · subst hc
      simp [startsL, ih]
    · have hcb : ('\n' == c) = false := by
        rw [beq_eq_false_iff_ne]
        exact fun h => hc h.symm
      simp [startsL, hcb, hc, ih]

theorem cleanCell_data (s : String) : (cleanCell s).data = spaceNl (escPipes s.data) := by
  show (pyReplace (pyReplace s "|" "\\|") "\n" " ").data = _
  have h1 : pyReplace s "|" "\\|" = String.mk (escPipes s.data) := by
    show String.mk (replaceL '|' [] ['\\', '|'] 0 s.data) = _
    rw [replaceL_pipe]
  rw [h1]
  show (String.mk (replaceL '\n' [] [' '] 0 (escPipes s.data))).data = _
  rw [replaceL_nl]

theorem cupAux_append : ∀ (a : List Char) (p : Char) (b : List Char),
    cupAux p (a ++ b) = cupAux p a + cupAux (a.getLastD p) b := by
  intro a
  induction a with
  | nil => intro p b; simp [cupAux]
  | cons c as ih =>
    intro p b
    rw [List.cons_append, List.getLastD_cons]
    show cupAux p (c :: (as ++ b)) = cupAux p (c :: as) + cupAux (as.getLastD c) b
    simp only [cupAux]
    rw [ih c b]
    omega

theorem cupAux_clean : ∀ (l : List Char) (p : Char), cupAux p (spaceNl (escPipes l)) = 0 := by
  intro l
  induction l with
  | nil => intro p; rfl
  | cons c rest ih =>
    intro p
    by_cases hc : c = '|'
    · subst hc
      simp [escPipes, spaceNl, cupAux, ih]
    · by_cases hn : c = '\n'
      · subst hn
        simp [escPipes, spaceNl, cupAux, ih]
      · have hc' : (c == '|') = false := by simp [hc]
        have hn' : (c == '\n') = false := by simp [hn]
        simp [escPipes, spaceNl, cupAux, hc', hn', ih]

theorem spaceNl_no_nl : ∀ l : List Char, (spaceNl l).all (fun c => c != '\n') = true := by
  intro l
  induction l with
  | nil => rfl
  | cons c rest ih =>
    by_cases hn : c = '\n'
    · subst hn
      simp [spaceNl, ih]
    · have hn' : (c == '\n') = false := by simp [hn]
      simp [spaceNl, hn', ih, hn]

theorem cupAux_of_no_pipe : ∀ (l : List Char) (p : Char),
    l.all (fun c => c != '|') = true → cupAux p l = 0 := by
  intro l
  induction l with
  | nil => intro p _; rfl
  | cons c rest ih =>
    intro p h
    rw [List.all_cons, Bool.and_eq_true] at h
    have hc : (c == '|') = false := by
      cases hcc : c == '|'
      · rfl
      · exact absurd hcc (by simpa using h.1)
    simp [cupAux, hc, ih c h.2]

theorem cupAux_joinBar : ∀ (cells : List String),
    (∀ c ∈ cells, ∀ p, cupAux p c.data = 0) →
    ∀ p, cupAux p (joinBar cells).data = cells.length - 1
  | [], _, p => rfl
  | [c], h, p => by
    simpa [joinBar] using h c (List.mem_singleton_self c) p
  | c :: c' :: rest, h, p => by
    have ih := cupAux_joinBar (c' :: rest) (fun x hx => h x (List.mem_cons_of_mem _ hx))
    show cupAux p ((c ++ " | " ++ joinBar (c' :: rest)).data) = _
    have hdata : (c ++ " | " ++ joinBar (c' :: rest)).data
        = c.data ++ (' ' :: '|' :: ' ' :: (joinBar (c' :: rest)).data) := by
      simp [String.data_append]
    rw [hdata, cupAux_append, h c (List.mem_cons_self c _) p]
    simp only [cupAux, ih]
    simp
    omega

theorem countUP_line (cells : List String) (hne : cells ≠ [])
    (h : ∀ c ∈ cells, ∀ p, cupAux p c.data = 0) :
    countUP ("| " ++ joinBar cells ++ " |\n") = cells.length + 1 := by
  have hdata : ("| " ++ joinBar cells ++ " |\n").data
      = '|' :: ' ' :: ((joinBar cells).data ++ (' ' :: '|' :: '\n' :: [])) := by
    simp [String.data_append]
  unfold countUP
  rw [hdata]
  simp only [cupAux]
  rw [cupAux_append, cupAux_joinBar cells h]
  have hlen : 1 ≤ cells.length := by
    cases cells
    · exact absurd rfl hne
    · simp
  simp only [cupAux]
  simp
  omega

theorem padTake_length (n : Nat) (l : List String) : (padTake n l).length = n := by
  simp [padTake, List.length_take, List.length_append, List.length_replicate]
  omega

/-- C5 counterexample: a one-column table whose header cell contains a literal
pipe.  The header line of line 331 is emitted WITHOUT escaping, so it carries
three unescaped pipes instead of the two the claim requires for column count
one, and the unescaped-pipe split does not yield exactly one cell field. -/
theorem C5_cex :
    hasSubS "| Total (A) | x |\n"
        (format_question_section 1 "Q?" [["Total (A) | x"]] [["50%"]]) = true
    ∧ countUP "| Total (A) | x |\n" = 3
    ∧ ¬ countUP "| Total (A) | x |\n" = 1 + 1 :=
  ⟨rfl, rfl, by decide⟩

/-- C5 (corrected): every emitted DATA row has exactly column-count cell
fields — its line contains `column count + 1` unescaped pipes, every literal
pipe of a data cell is escaped (`cleanCell` leaves no unescaped pipe) and
embedded newlines are replaced by a space.  The header (and secondary-header)
lines are emitted without escaping — the amendment — so their field count is
correct only when their cells contain no pipe character. -/
theorem C5_amended (ths dr : List String) (c : String) (hne : ths ≠ []) :
    (countUP (renderDataRow ths dr) = ths.length + 1
      ∧ countUP (cleanCell c) = 0
      ∧ (cleanCell c).data.all (fun ch => ch != '\n') = true)
    ∧ (ths.all (fun h => h.data.all (fun ch => ch != '|')) = true →
        countUP (renderHeaderLine ths) = ths.length + 1) := by
  have hlen : 1 ≤ ths.length := by
    cases ths
    · exact absurd rfl hne
    · simp
  constructor
  · refine ⟨?_, ?_, ?_⟩
    · show countUP ("| " ++ joinBar ((padTake ths.length dr).map cleanCell) ++ " |\n") = _
      rw [countUP_line]
      · rw [List.length_map, padTake_length]
      · intro hmap
        have h0 := congrArg List.length hmap
        rw [List.length_map, padTake_length, List.length_nil] at h0
        omega
      · intro x hx p
        obtain ⟨y, _, rfl⟩ := List.mem_map.mp hx
        rw [cleanCell_data]
        exact cupAux_clean y.data p
    · show cupAux ' ' (cleanCell c).data = 0
      rw [cleanCell_data]
      exact cupAux_clean c.data ' '
    · rw [cleanCell_data]
      exact spaceNl_no_nl (escPipes c.data)
  · intro hpure
    show countUP ("| " ++ joinBar ths ++ " |\n") = _
    rw [countUP_line ths hne]
    intro x hx p
    exact cupAux_of_no_pipe x.data p (by
      rw [List.all_eq_true] at hpure
      exact hpure x hx)

/-- Witness for C5 at a one-column table with a data cell containing both a
pipe and a newline. -/
theorem C5_witness :
    countUP (renderDataRow ["A"] ["1|2"]) = 2
    ∧ countUP (cleanCell "a|b\nc") = 0
    ∧ countUP (renderHeaderLine ["A"]) = 2 := by
  have h := C5_amended ["A"] ["1|2"] "a|b\nc" (by simp)
  exact ⟨h.1.1, h.1.2.1, h.2 (by decide)⟩

theorem startsL_append_self : ∀ (l r : List Char), startsL l (l ++ r) = true
  | [], _ => rfl
  | c :: cs, r => by simp [startsL, startsL_append_self cs r]

theorem hasSub_self_append : ∀ (n r : List Char), hasSub n (n ++ r) = true
  | [], r => by cases r <;> simp [hasSub, startsL]
  | c :: cs, r => by
    rw [List.cons_append, hasSub]
    have h := startsL_append_self (c :: cs) r
    rw [List.cons_append] at h
    simp [h]

theorem hasSub_cons (n : List Char) (c : Char) (hay : List Char)
    (h : hasSub n hay = true) : hasSub n (c :: hay) = true := by
  rw [hasSub]
  simp [h]

theorem hasSub_append_left : ∀ (a n b : List Char), hasSub n b = true → hasSub n (a ++ b) = true
  | [], _, _, h => h
  | c :: as, n, b, h => by
    rw [List.cons_append]
    exact hasSub_cons _ _ _ (hasSub_append_left as n b h)

/-- C7 counterexample: a section with a reconciled header but zero data rows.
The whole table emission of lines 327-358 sits under `if data_rows:`, so
neither the header line nor the separator is emitted — only the question
heading — contradicting the claim's "even when the section has zero data
rows". -/
theorem C7_cex :
    format_question_section 1 "Q" [["Total (A)"]] [] = "### Question 1\n\n**Q**\n\n"
    ∧ hasSubS "---" (format_question_section 1 "Q" [["Total (A)"]] []) = false
    ∧ hasSubS "| Total (A) |" (format_question_section 1 "Q" [["Total (A)"]] []) = false :=
  ⟨rfl, rfl, rfl⟩

/-- C7 (corrected): for every section with a non-empty HeaderSet AND at least
one data row (the amendment), the renderer emits the Markdown header line
built from HeaderSet[0] and the separator line of `---` repeated per column;
with zero data rows no table is emitted at all. -/
theorem C7_amended (n : Nat) (q : String) (h : List String) (hs : List (List String))
    (d : List String) (ds : List (List String)) :
    hasSubS (renderHeaderLine h) (format_question_section n q (h :: hs) (d :: ds)) = true
    ∧ hasSubS (sepLine h.length) (format_question_section n q (h :: hs) (d :: ds)) = true := by
  cases hs with
  | nil =>
    have hout : format_question_section n q [h] (d :: ds)
        = "### Question " ++ Nat.repr n ++ "\n\n**" ++ q ++ "**\n\n"
          ++ "#### Response Data\n\n"
          ++ renderHeaderLine h ++ sepLine h.length ++ ""
          ++ String.join ((d :: ds).map (renderDataRow h)) ++ "\n" := rfl
    constructor
    · show hasSub (renderHeaderLine h).data (format_question_section n q [h] (d :: ds)).data = true
      rw [hout]
      simp only [String.data_append, List.append_assoc]
      apply hasSub_append_left
      apply hasSub_append_left
      apply hasSub_append_left
      apply hasSub_append_left
      apply hasSub_append_left
      apply hasSub_append_left
      exact hasSub_self_append _ _
    · show hasSub (sepLine h.length).data (format_question_section n q [h] (d :: ds)).data = true
      rw [hout]
      simp only [String.data_append, List.append_assoc]
      apply hasSub_append_left
      apply hasSub_append_left
      apply hasSub_append_left
      apply hasSub_append_left
      apply hasSub_append_left
      apply hasSub_append_left
      apply hasSub_append_left
      exact hasSub_self_append _ _
  | cons sec hs' =>
    have hout : format_question_section n q (h :: sec :: hs') (d :: ds)
        = "### Question " ++ Nat.repr n ++ "\n\n**" ++ q ++ "**\n\n"
          ++ "#### Response Data\n\n"
          ++ renderHeaderLine h ++ sepLine h.length ++ renderSecondaryLine h sec
          ++ String.join ((d :: ds).map (renderDataRow h)) ++ "\n" := rfl
    constructor
    · show hasSub (renderHeaderLine h).data
          (format_question_section n q (h :: sec :: hs') (d :: ds)).data = true
      rw [hout]
      simp only [String.data_append, List.append_assoc]
      apply hasSub_append_left
      apply hasSub_append_left
      apply hasSub_append_left
      apply hasSub_append_left
      apply hasSub_append_left
      apply hasSub_append_left
      exact hasSub_self_append _ _
    · show hasSub (sepLine h.length).data
          (format_question_section n q (h :: sec :: hs') (d :: ds)).data = true
      rw [hout]
      simp only [String.data_append, List.append_assoc]
      apply hasSub_append_left
      apply hasSub_append_left
      apply hasSub_append_left
      apply hasSub_append_left
      apply hasSub_append_left
      apply hasSub_append_left
      apply hasSub_append_left
      exact hasSub_self_append _ _

/-- C6 counterexample: the single-row grid whose only row is a question.
Its section has no flagged headers and no data, so line 292 skips it: the
document contains no "no data" placeholder and counts zero questions — the
claim's "rendered rather than silently dropped" is false here. -/
theorem C6_cex :
    questionBoundaries [["How is your day going today my friend?"]] = [0]
    ∧ sectionHeaders [["How is your day going today my friend?"]] 0 1 = []
    ∧ sectionData [["How is your day going today my friend?"]] 0 1 = []
    ∧ hasSubS "No response data"
        (format_survey_csv_to_markdown [["How is your day going today my friend?"]] 1 "t.csv")
        = false
    ∧ hasSubS "**Total Questions Processed:** 0"
        (format_survey_csv_to_markdown [["How is your day going today my friend?"]] 1 "t.csv")
        = true :=
  ⟨rfl, rfl, rfl, by decide, by decide⟩

/-- C6 (corrected): when a section has no flagged header rows and no data
rows, the assembler skips it entirely — nothing is emitted and the question
counter is unchanged (line 292).  The renderer itself WOULD emit the "no
data" placeholder if called with empty headers and data (lines 313-315), but
the assembler never calls it that way, so the placeholder never reaches the
document for such sections. -/
theorem C6_amended (grid : List (List String)) (qs qe n m : Nat) (q : String)
    (h1 : sectionHeaders grid qs qe = []) (h2 : sectionData grid qs qe = []) :
    sectionOutput grid qs qe n = ("", n)
    ∧ format_question_section m q [] []
        = "### Question " ++ Nat.repr m ++ "\n\n**" ++ q ++ "**\n\n"
          ++ "*No response data available for this question.*\n\n" := by
  constructor
  · unfold sectionOutput
    rw [h1, h2]
    simp [reconcileHeaders]
  · rfl

/-- Witness for C6 at a concrete one-row grid. -/
theorem C6_witness :
    sectionOutput [["x"]] 0 1 0 = ("", 0)
    ∧ format_question_section 1 "Q" [] []
        = "### Question " ++ Nat.repr 1 ++ "\n\n**" ++ "Q" ++ "**\n\n"
          ++ "*No response data available for this question.*\n\n" :=
  ⟨(C6_amended [["x"]] 0 1 0 1 "Q" rfl rfl).1, (C6_amended [["x"]] 0 1 0 1 "Q" rfl rfl).2⟩

/-- C8 counterexample: for a zero-row grid the early return of lines 161-162
emits ONLY the title and placeholder; the summary block (and its zero
question count) is never emitted, so the claim's "reports zero questions
processed (the summary with a zero count)" fails. -/
theorem C8_cex :
    format_survey_csv_to_markdown [] 3 "survey.csv" = "# survey.csv\n\n*This file is empty.*\n"
    ∧ hasSubS "*This file is empty.*" (format_survey_csv_to_markdown [] 3 "survey.csv") = true
    ∧ hasSubS "Total Questions Processed" (format_survey_csv_to_markdown [] 3 "survey.csv")
        = false :=
  ⟨rfl, rfl, rfl⟩

/-- C8 (corrected): for a grid with zero rows the conversion does not fail and
returns exactly the title plus the empty-file placeholder; no summary section
— hence no zero-question count — is part of the output. -/
theorem C8_amended (ncols : Nat) (filename : String) :
    format_survey_csv_to_markdown [] ncols filename
      = "# " ++ filename ++ "\n\n*This file is empty.*\n" := rfl
